import Mathlib

/-!
Verification of the easy-record-working front-end.

The development shallowly embeds the TypeScript sources of the repository:
pure helpers become Lean functions, the browser environment (local storage,
fetch responses, rendering and notification side effects) becomes explicit
data, and JavaScript numbers become rationals.  Each definition is translated
from a named function of the sources; theorems at the end settle the spec
claims against these definitions.
-/

namespace EasyRecord

/-- JSON values, modelling payloads exchanged with the backend.
Numbers are modelled as rationals. -/
inductive Json where
  | null
  | bool (b : Bool)
  | num (q : ℚ)
  | str (s : String)
  | arr (items : List Json)
  | obj (fields : List (String × Json))

/-- Property access on a parsed JSON value: JavaScript item.key, giving
undefined (none) when the value is not an object or lacks the key. -/
def Json.getField : Json → String → Option Json
  | .obj fields, key => fields.lookup key
  | _, _ => none

/-- JavaScript truthiness of a JSON value (NaN aside, which no claim needs). -/
def Json.truthy : Json → Bool
  | .null => false
  | .bool b => b
  | .num q => q != 0
  | .str s => s != ""
  | .arr _ => true
  | .obj _ => true

/-- Read a string-valued field, none when absent or not a string. -/
def Json.getStr (j : Json) (key : String) : Option String :=
  match j.getField key with
  | some (.str s) => some s
  | _ => none

/-! ## Session store (src/app/lib/auth.ts) -/

/-- AuthUser from src/app/lib/auth.ts. -/
structure AuthUser where
  id : Option String := none
  account : String
  display_name : Option String := none
  role : Option String := none
deriving DecidableEq

/-- AuthTenant from src/app/lib/auth.ts. -/
structure AuthTenant where
  id : Option String := none
  code : Option String := none
  name : Option String := none
deriving DecidableEq

/-- AuthSession from src/app/lib/auth.ts. -/
structure AuthSession where
  token : String
  user : Option AuthUser := none
  tenant : Option AuthTenant := none
deriving DecidableEq

/-- The local-storage slot under the key easy-record-session, seen through the
JSON layer: the item may be absent, the empty string, text that JSON.parse
rejects (parse throwing is modelled by this constructor), or text that parses
to a JSON value (JSON.stringify and JSON.parse being mutually inverse on
values, the slot holds the value itself). -/
inductive Stored where
  | absent
  | emptyString
  | notJson (raw : String)
  | json (j : Json)

/-- JSON.stringify of an AuthUser; fields holding undefined are dropped. -/
def encodeUser (u : AuthUser) : Json :=
  .obj ((match u.id with | some v => [("id", Json.str v)] | none => []) ++
    [("account", Json.str u.account)] ++
    (match u.display_name with | some v => [("display_name", Json.str v)] | none => []) ++
    (match u.role with | some v => [("role", Json.str v)] | none => []))

/-- JSON.stringify of an AuthTenant; fields holding undefined are dropped. -/
def encodeTenant (t : AuthTenant) : Json :=
  .obj ((match t.id with | some v => [("id", Json.str v)] | none => []) ++
    (match t.code with | some v => [("code", Json.str v)] | none => []) ++
    (match t.name with | some v => [("name", Json.str v)] | none => []))

/-- JSON.stringify of an AuthSession; fields holding undefined are dropped. -/
def encodeSession (s : AuthSession) : Json :=
  .obj ([("token", Json.str s.token)] ++
    (match s.user with | some u => [("user", encodeUser u)] | none => []) ++
    (match s.tenant with | some t => [("tenant", encodeTenant t)] | none => []))

/-- Reading the user object back off the parsed session (the source casts the
parsed value to AuthSession, so the fields are read structurally). -/
def decodeUser (j : Json) : Option AuthUser :=
  match j with
  | .obj _ => some
      { id := j.getStr "id"
        account := (j.getStr "account").getD ""
        display_name := j.getStr "display_name"
        role := j.getStr "role" }
  | _ => none

/-- Reading the tenant object back off the parsed session. -/
def decodeTenant (j : Json) : Option AuthTenant :=
  match j with
  | .obj _ => some
      { id := j.getStr "id"
        code := j.getStr "code"
        name := j.getStr "name" }
  | _ => none

/-- loadAuthSession from src/app/lib/auth.ts: absent or empty raw text gives
null; JSON.parse failing (caught) gives null; a parsed value whose token
property is falsy or not a string gives null (reading a property off a parsed
null also throws inside the try and is caught); otherwise the parsed session. -/
def loadAuthSession (store : Stored) : Option AuthSession :=
  match store with
  | .absent => none
  | .emptyString => none
  | .notJson _ => none
  | .json parsed =>
    match parsed.getField "token" with
    | some (.str t) =>
      if t = "" then none
      else some
        { token := t
          user := (parsed.getField "user").bind decodeUser
          tenant := (parsed.getField "tenant").bind decodeTenant }
    | _ => none

/-- saveAuthSession from src/app/lib/auth.ts: stores JSON.stringify(session). -/
def saveAuthSession (s : AuthSession) : Stored :=
  .json (encodeSession s)

/-- loadAuthToken from src/app/lib/auth.ts. -/
def loadAuthToken (store : Stored) : Option String :=
  (loadAuthSession store).map (fun s => s.token)

/-- loadAuthUser from src/app/lib/auth.ts. -/
def loadAuthUser (store : Stored) : Option AuthUser :=
  (loadAuthSession store).bind (fun s => s.user)

/-- loadAuthTenant from src/app/lib/auth.ts. -/
def loadAuthTenant (store : Stored) : Option AuthTenant :=
  (loadAuthSession store).bind (fun s => s.tenant)

/-- A stored value of the kinds claim C9 lists: absent, unparsable text, or a
parsed value whose token property is missing, empty, or not a string. -/
def storedBad : Stored → Prop
  | .absent => True
  | .emptyString => True
  | .notJson _ => True
  | .json j =>
    match j.getField "token" with
    | some (.str t) => t = ""
    | _ => True

/-! ## API client (src/app/lib/api.ts) -/

/-- normalizeBase from src/app/lib/api.ts. -/
def normalizeBase (base : String) : String :=
  if base = "" then ""
  else if base.endsWith "/" then base.dropRight 1 else base

/-- API_BASE from src/app/lib/api.ts (the built-in default backend address). -/
def API_BASE : String := normalizeBase "http://47.117.71.201:8081/"

/-- buildUrl from src/app/lib/api.ts. -/
def buildUrl (path : String) : String :=
  if path.startsWith "http://" || path.startsWith "https://" then path
  else API_BASE ++ path

/-- ApiRequestOptions from src/app/lib/api.ts. -/
structure ApiRequestOptions where
  method : Option String := none
  body : Option Json := none
  headers : List (String × String) := []

/-- The request handed to fetch.  The body holds the JSON value whose
serialization is sent (JSON.stringify being injective on values, keeping the
value models the serialized string). -/
structure FetchRequest where
  url : String
  method : String
  headers : List (String × String)
  body : Option Json

/-- Header maps are JavaScript objects where a later assignment wins; the
list stores the highest-precedence binding first, so lookup is List.lookup. -/
def headerLookup (headers : List (String × String)) (key : String) : Option String :=
  headers.lookup key

/-- The header object built by apiJson: Content-Type application/json as base,
options.headers spread over it, then Authorization set to the bearer token
when one is loaded. -/
def apiJsonHeaders (token : Option String) (options : ApiRequestOptions) :
    List (String × String) :=
  let headers := options.headers ++ [("Content-Type", "application/json")]
  match token with
  | some t => ("Authorization", "Bearer " ++ t) :: headers
  | none => headers

/-- The header object built by apiBlob: options.headers, then Authorization
set to the bearer token when one is loaded (no Content-Type base). -/
def apiBlobHeaders (token : Option String) (options : ApiRequestOptions) :
    List (String × String) :=
  match token with
  | some t => ("Authorization", "Bearer " ++ t) :: options.headers
  | none => options.headers

/-- The fetch request issued by apiJson: body serialized when truthy,
method defaulting to GET. -/
def apiJsonRequest (token : Option String) (path : String)
    (options : ApiRequestOptions) : FetchRequest :=
  { url := buildUrl path
    method := options.method.getD "GET"
    headers := apiJsonHeaders token options
    body := match options.body with
      | some j => if j.truthy then some j else none
      | none => none }

/-- The fetch request issued by apiBlob. -/
def apiBlobRequest (token : Option String) (path : String)
    (options : ApiRequestOptions) : FetchRequest :=
  { url := buildUrl path
    method := options.method.getD "GET"
    headers := apiBlobHeaders token options
    body := match options.body with
      | some j => if j.truthy then some j else none
      | none => none }

/-- The text layer of an HTTP response body: empty text, nonempty text that
JSON.parse rejects, or text parsing to a JSON value. -/
inductive ResponseBody where
  | empty
  | notJson (raw : String)
  | json (j : Json)
deriving Inhabited

/-- An HTTP response as apiJson and apiBlob observe it. -/
structure HttpResponse where
  ok : Bool
  status : Nat
  body : ResponseBody

/-- The payload variable of apiJson: null when the text is empty, the parsed
value when parsing succeeds, the raw text itself when parsing throws. -/
def responsePayload : ResponseBody → Json
  | .empty => .null
  | .notJson raw => .str raw
  | .json j => j

/-- The message thrown by apiJson on a non-ok HTTP status: the payload message
property when the payload is truthy and the property a nonempty string,
otherwise the default with the status interpolated. -/
def httpErrorMessage (payload : Json) (status : Nat) : String :=
  let fromBody : Option String :=
    if payload.truthy then
      match payload.getField "message" with
      | some (.str m) => if m = "" then none else some m
      | _ => none
    else none
  fromBody.getD ("请求失败(" ++ toString status ++ ")")

/-- The envelope check of apiJson: the payload is an object whose code
property is a number different from zero. -/
def envelopeErrorCode (payload : Json) : Option ℚ :=
  match payload with
  | .obj _ =>
    match payload.getField "code" with
    | some (.num c) => if c ≠ 0 then some c else none
    | _ => none
  | _ => none

/-- Rendering a JSON value to text, as JavaScript coerces a non-string Error
argument (only the string and null cases back any claim). -/
def jsDisplay : Json → String
  | .null => "null"
  | .bool true => "true"
  | .bool false => "false"
  | .num q => toString q
  | .str s => s
  | .arr _ => "[array]"
  | .obj _ => "[object Object]"

/-- The message thrown by apiJson on a non-zero envelope code: the payload
message property, the default when it is absent or null. -/
def envelopeErrorMessage (payload : Json) : String :=
  match payload.getField "message" with
  | some .null => "请求失败"
  | some (.str m) => m
  | some other => jsDisplay other
  | none => "请求失败"

/-- The result of apiJson on a response (src/app/lib/api.ts): throw on a
non-ok status, then throw on a non-zero numeric envelope code, otherwise
return the payload. -/
def apiJsonResult (resp : HttpResponse) : Except String Json :=
  let payload := responsePayload resp.body
  if !resp.ok then .error (httpErrorMessage payload resp.status)
  else if (envelopeErrorCode payload).isSome then .error (envelopeErrorMessage payload)
  else .ok payload

/-- The result of apiBlob on a response (src/app/lib/api.ts): throw on a
non-ok status, otherwise return the raw body as a blob. -/
def apiBlobResult (resp : HttpResponse) : Except String ResponseBody :=
  if !resp.ok then .error ("请求失败(" ++ toString resp.status ++ ")")
  else .ok resp.body

/-! ## Calendar grid (src/app/page.tsx) -/

/-- pad from src/app/page.tsx: String(value).padStart(2, "0"). -/
def padTwo (n : ℕ) : String :=
  if n < 10 then "0" ++ toString n else toString n

/-- The date key format of the daily-record page: year-month-day, zero-padded. -/
def dateKey (y m d : ℕ) : String :=
  toString y ++ "-" ++ padTwo m ++ "-" ++ padTwo d

/-- toMonthKey from src/app/page.tsx: year-month, zero-padded. -/
def monthKey (y m : ℕ) : String :=
  toString y ++ "-" ++ padTwo m

/-- Gregorian leap years, as the JavaScript Date arithmetic realizes them. -/
def isLeapYear (y : ℕ) : Bool :=
  (y % 4 == 0 && y % 100 != 0) || y % 400 == 0

/-- new Date(year, month, 0).getDate() for a one-based month: the number of
days of that month. -/
def daysInMonth (y m : ℕ) : ℕ :=
  if m = 2 then (if isLeapYear y then 29 else 28)
  else if m = 4 ∨ m = 6 ∨ m = 9 ∨ m = 11 then 30
  else 31

/-- Month offsets of Sakamoto's day-of-week algorithm. -/
def sakamotoOffsets : List ℕ := [0, 3, 2, 5, 0, 3, 5, 1, 4, 6, 2, 4]

/-- new Date(y, m - 1, d).getDay() for a one-based month m: the Gregorian day
of week with Sunday as 0, by Sakamoto's method. -/
def getDayJS (y m d : ℕ) : ℕ :=
  let y2 := if m < 3 then y - 1 else y
  (y2 + y2 / 4 - y2 / 100 + y2 / 400 + sakamotoOffsets.getD (m - 1) 0 + d) % 7

/-- startIndex from src/app/page.tsx: (monthStart.getDay() + 6) % 7, the
Monday-based weekday index of the first day of the month. -/
def startIndex (y m : ℕ) : ℕ :=
  (getDayJS y m 1 + 6) % 7

/-- totalCells from src/app/page.tsx: Math.ceil((startIndex + daysInMonth) / 7) * 7,
with the ceiling division written on naturals. -/
def totalCells (y m : ℕ) : ℕ :=
  ((startIndex y m + daysInMonth y m + 6) / 7) * 7

/-- One cell of the calendar grid of src/app/page.tsx: day = index - startIndex + 1,
empty when the day falls outside 1..daysInMonth, else the day and its date key. -/
def calendarCell (y m : ℕ) (index : ℕ) : Option (ℕ × String) :=
  let s := startIndex y m
  let d := daysInMonth y m
  let day : ℤ := (index : ℤ) - (s : ℤ) + 1
  if day < 1 ∨ day > (d : ℤ) then none
  else some (day.toNat, dateKey y m day.toNat)

/-- calendarCells from src/app/page.tsx: Array.from({length: totalCells}, ...). -/
def calendarCells (y m : ℕ) : List (Option (ℕ × String)) :=
  (List.range (totalCells y m)).map (calendarCell y m)

/-- The month-selection state touched by handleMonthChange. -/
structure HomeMonthState where
  selectedMonth : String
  selectedDate : String
deriving DecidableEq

/-- handleMonthChange from src/app/page.tsx: store the picked month key and
select its first day. -/
def handleMonthChange (next : String) : HomeMonthState :=
  { selectedMonth := next, selectedDate := next ++ "-01" }

/-! ## Entry-list pagination (src/app/page.tsx) -/

/-- The pagination state of the daily-record page. -/
structure PagerState where
  page : ℕ
  total : ℕ
  pageSize : ℕ
deriving DecidableEq

/-- entryTotalPages from src/app/page.tsx:
Math.max(1, Math.ceil(entryTotal / entryPageSize)). -/
def totalPages (s : PagerState) : ℕ :=
  max 1 ((s.total + s.pageSize - 1) / s.pageSize)

/-- The operations of the daily-record page that touch the pagination state:
the previous and next buttons, the page-size select (which also resets the
page to 1), a change of the date, work-type or project filter (the effect
resets the page to 1), and the arrival of a loadEntries response carrying a
new total (which clamps the page down only when the new total is positive). -/
inductive PagerAction where
  | prevClick
  | nextClick
  | setPageSize (n : ℕ)
  | filterChange
  | loadResult (total : ℕ)

/-- The state transition of each pagination operation, from src/app/page.tsx. -/
def pagerStep (s : PagerState) : PagerAction → PagerState
  | .prevClick => { s with page := max 1 (s.page - 1) }
  | .nextClick => { s with page := min (totalPages s) (s.page + 1) }
  | .setPageSize n => { s with pageSize := n, page := 1 }
  | .filterChange => { s with page := 1 }
  | .loadResult t =>
    let s2 : PagerState := { s with total := t }
    let next := totalPages s2
    if 0 < t ∧ next < s2.page then { s2 with page := next } else s2

/-- The page-size options offered by the select control. -/
def pageSizeOptions : List ℕ := [10, 15, 20, 50]

/-- The initial pagination state: page 1, no total yet, default size 15. -/
def pagerInit : PagerState := { page := 1, total := 0, pageSize := 15 }

/-- The invariant claim C10 states. -/
def pagerInv (s : PagerState) : Prop :=
  1 ≤ s.page ∧ s.page ≤ totalPages s

instance (s : PagerState) : Decidable (pagerInv s) := by
  unfold pagerInv; infer_instance

/-! ## AuthGuard (src/app/components/AuthGuard.tsx) -/

/-- What AuthGuard settles to after its effect runs. -/
structure GuardOutcome where
  redirect : Option String
  rendersChildren : Bool
deriving DecidableEq

/-- The public paths of AuthGuard. -/
def isPublicPath (pathname : String) : Bool :=
  pathname == "/login" || pathname == "/register" ||
  pathname == "/privacy" || pathname == "/disclaimer"

/-- AuthGuard from src/app/components/AuthGuard.tsx: public paths render the
children directly; elsewhere a falsy loaded token (absent, or empty) replaces
the route with /login and the children are never rendered; a nonempty token
renders the children. -/
def authGuard (pathname : String) (token : Option String) : GuardOutcome :=
  if isPublicPath pathname then { redirect := none, rendersChildren := true }
  else if token.getD "" = "" then { redirect := some "/login", rendersChildren := false }
  else { redirect := none, rendersChildren := true }

/-! ## View-page effects: error handlers and the employee form -/

/-- The user-visible and network effects a handler can perform. -/
inductive Effect where
  | consoleError
  | toast (message level : String)
  | apiRequest (method path : String) (bodyFields : List String)
  | reloadEmployees
  | clearEntries
  | clearSummary
  | clearEmployees
  | resetDayDetail
  | closeModal
deriving DecidableEq

/-- Whether an effect surfaces a toast notification. -/
def Effect.isToast : Effect → Bool
  | .toast _ _ => true
  | _ => false

/-- Whether an effect issues (or re-issues) a request to the backend. -/
def Effect.issuesRequest : Effect → Bool
  | .apiRequest _ _ _ => true
  | .reloadEmployees => true
  | _ => false

/-- The API call sites of the four view pages (daily record, employees,
projects, reports), each wrapped in try/catch in the sources. -/
inductive CallSite where
  | homeLoadEmployees
  | homeLoadProjects
  | homeLoadEntries
  | homeLoadSummary
  | homeDelete
  | homeSubmitEdit
  | homeSubmitBatch
  | employeesLoad
  | employeesDelete
  | employeesSubmit
  | employeesImport
  | employeesExport
  | projectsLoad
  | projectsDelete
  | projectsSubmit
  | reportsLoadEmployees
  | reportsLoadProjects
  | reportsLoadSummary
  | reportsDayDetail
deriving DecidableEq

/-- The effects each call site's catch block performs, translated from the
sources.  The argument is the caught error's message when the error is an
Error instance (error instanceof Error ? error.message : fallback). -/
def catchEffects : CallSite → Option String → List Effect
  | .homeLoadEmployees, _ => [.consoleError]
  | .homeLoadProjects, _ => [.consoleError]
  | .homeLoadEntries, _ => [.consoleError, .clearEntries]
  | .homeLoadSummary, _ => [.consoleError, .clearSummary]
  | .homeDelete, e => [.toast (e.getD "删除失败，请稍后再试。") "error"]
  | .homeSubmitEdit, e => [.toast (e.getD "保存失败，请稍后再试。") "error"]
  | .homeSubmitBatch, e => [.toast (e.getD "保存失败，请稍后再试。") "error"]
  | .employeesLoad, _ => [.consoleError, .clearEmployees]
  | .employeesDelete, e => [.toast (e.getD "删除失败，请稍后再试。") "error"]
  | .employeesSubmit, e => [.toast (e.getD "保存失败，请稍后再试。") "error"]
  | .employeesImport, e => [.toast (e.getD "导入失败，请稍后再试。") "error"]
  | .employeesExport, e => [.toast (e.getD "导出失败，请稍后再试。") "error"]
  | .projectsLoad, _ => [.consoleError]
  | .projectsDelete, e => [.toast (e.getD "删除失败，请稍后再试。") "error"]
  | .projectsSubmit, e => [.toast (e.getD "保存失败，请稍后再试。") "error"]
  | .reportsLoadEmployees, _ => [.consoleError]
  | .reportsLoadProjects, _ => [.consoleError]
  | .reportsLoadSummary, e =>
    [.consoleError, .toast (e.getD "加载报表失败，请稍后再试。") "error", .clearSummary]
  | .reportsDayDetail, e =>
    [.consoleError, .toast (e.getD "加载当日记工失败。") "error", .resetDayDetail]

/-- The call sites whose catch block only logs to the console (the list and
dropdown loads of the daily-record, employees, projects and reports pages). -/
def silentSites : List CallSite :=
  [.homeLoadEmployees, .homeLoadProjects, .homeLoadEntries, .homeLoadSummary,
   .employeesLoad, .projectsLoad, .reportsLoadEmployees, .reportsLoadProjects]

/-! ## Employee form submission (src/app/employees/page.tsx) -/

/-- FormState of src/app/employees/page.tsx. -/
structure EmployeeFormState where
  name : String
  type : String
  workType : String
  phone : String
  idCardNumber : String
  remark : String
  tags : List String
deriving DecidableEq

/-- Array.from(new Set(list)): deduplication keeping first occurrences. -/
def dedupKeepFirst (l : List String) : List String :=
  l.foldl (fun acc x => if x ∈ acc then acc else acc ++ [x]) []

/-- JavaScript String.prototype.trim: drop leading and trailing whitespace. -/
def jsTrim (s : String) : String :=
  String.mk (((s.data.dropWhile Char.isWhitespace).reverse.dropWhile
    Char.isWhitespace).reverse)

/-- handleFormSubmit from src/app/employees/page.tsx, returning the effects
performed together with the resulting form state and tag-input text.  An
empty trimmed name warns and returns before anything else; otherwise a
pending tag is staged, the create or update request is sent, a success toast
shows, the modal closes and the list reloads. -/
def submitEmployeeForm (editing : Option String) (form : EmployeeFormState)
    (tagInput : String) : List Effect × EmployeeFormState × String :=
  let name := jsTrim form.name
  if name = "" then
    ([.toast "请输入员工姓名。" "warning"], form, tagInput)
  else
    let pendingTag := jsTrim tagInput
    let tagsToSave := if pendingTag ≠ "" then dedupKeepFirst (form.tags ++ [pendingTag])
      else form.tags
    let form2 := if pendingTag ≠ "" then { form with tags := tagsToSave } else form
    let tagInput2 := if pendingTag ≠ "" then "" else tagInput
    let bodyFields := ["name", "type", "work_type", "phone", "id_card_number", "remark", "tags"]
    let req := match editing with
      | some id => Effect.apiRequest "PUT" ("/api/employees/" ++ id) bodyFields
      | none => Effect.apiRequest "POST" "/api/employees" bodyFields
    let successMsg := match editing with
      | some _ => "员工已更新。"
      | none => "员工已新增。"
    ([req, .toast successMsg "success", .closeModal, .reloadEmployees], form2, tagInput2)

/-! ## Work units (src/app/page.tsx and src/app/reports/page.tsx) -/

/-- The units value of formatWorkUnits in src/app/page.tsx:
normalHours / 8 + overtimeHours / 6. -/
def workUnitsValue (normalHours overtimeHours : ℚ) : ℚ :=
  normalHours / 8 + overtimeHours / 6

/-- A raw summary item of the reports page, fields absent when the backend
omits them (SummaryItem of src/app/reports/page.tsx). -/
structure SummaryItemJs where
  date : Option String := none
  work_date : Option String := none
  headcount : Option ℚ := none
  headCount : Option ℚ := none
  normal_hours : Option ℚ := none
  normalHours : Option ℚ := none
  overtime_hours : Option ℚ := none
  overtimeHours : Option ℚ := none
  total_hours : Option ℚ := none
  totalHours : Option ℚ := none
  total_work_units : Option ℚ := none
  totalWorkUnits : Option ℚ := none

/-- SummaryDaily of src/app/reports/page.tsx. -/
structure SummaryDaily where
  date : String
  headcount : ℚ
  normalHours : ℚ
  overtimeHours : ℚ
  totalHours : ℚ
  totalWorkUnits : ℚ
deriving DecidableEq

/-- normalizeSummary from src/app/reports/page.tsx: null when both date
fields are absent or the date empty, the hours defaulting to 0, the total to
their sum, and the work units falling back to normalHours / 8 +
overtimeHours / 6 when the backend omits both work-unit fields. -/
def normalizeSummary (item : SummaryItemJs) : Option SummaryDaily :=
  match item.date.orElse (fun _ => item.work_date) with
  | none => none
  | some date =>
    if date = "" then none
    else
      let normalHours := (item.normal_hours.orElse (fun _ => item.normalHours)).getD 0
      let overtimeHours := (item.overtime_hours.orElse (fun _ => item.overtimeHours)).getD 0
      let totalHours := (item.total_hours.orElse (fun _ => item.totalHours)).getD
        (normalHours + overtimeHours)
      let headcount := (item.headcount.orElse (fun _ => item.headCount)).getD 0
      let totalWorkUnits :=
        match item.total_work_units.orElse (fun _ => item.totalWorkUnits) with
        | none => normalHours / 8 + overtimeHours / 6
        | some v => v
      some
        { date := date
          headcount := headcount
          normalHours := normalHours
          overtimeHours := overtimeHours
          totalHours := totalHours
          totalWorkUnits := totalWorkUnits }

/-- A raw time-entry item of the reports page, fields absent when omitted. -/
structure TimeEntryItemJs where
  id : Option String := none
  employee_name : Option String := none
  employeeName : Option String := none
  employee_type : Option String := none
  employeeType : Option String := none
  work_type : Option String := none
  workType : Option String := none
  employee_work_type : Option String := none
  normal_hours : Option ℚ := none
  normalHours : Option ℚ := none
  overtime_hours : Option ℚ := none
  overtimeHours : Option ℚ := none
  total_hours : Option ℚ := none
  totalHours : Option ℚ := none
  work_units : Option ℚ := none
  workUnits : Option ℚ := none
  remark : Option String := none

/-- TimeEntry of src/app/reports/page.tsx. -/
structure TimeEntryR where
  id : String
  employeeName : String
  employeeType : String
  workType : String
  normalHours : ℚ
  overtimeHours : ℚ
  totalHours : ℚ
  workUnits : ℚ
  remark : Option String
deriving DecidableEq

/-- normalizeTimeEntry from src/app/reports/page.tsx: null when the id or
employee name is missing or empty, the work units falling back to
normalHours / 8 + overtimeHours / 6 when both work-unit fields are absent. -/
def normalizeTimeEntry (item : TimeEntryItemJs) : Option TimeEntryR :=
  let id := item.id.getD ""
  let employeeName := (item.employee_name.orElse (fun _ => item.employeeName)).getD ""
  if id = "" ∨ employeeName = "" then none
  else
    let normalHours := (item.normal_hours.orElse (fun _ => item.normalHours)).getD 0
    let overtimeHours := (item.overtime_hours.orElse (fun _ => item.overtimeHours)).getD 0
    let totalHours := (item.total_hours.orElse (fun _ => item.totalHours)).getD
      (normalHours + overtimeHours)
    let workUnits :=
      match item.work_units.orElse (fun _ => item.workUnits) with
      | none => normalHours / 8 + overtimeHours / 6
      | some v => v
    some
      { id := id
        employeeName := employeeName
        employeeType := (item.employee_type.orElse (fun _ => item.employeeType)).getD ""
        workType := ((item.work_type.orElse (fun _ => item.workType)).orElse
          (fun _ => item.employee_work_type)).getD ""
        normalHours := normalHours
        overtimeHours := overtimeHours
        totalHours := totalHours
        workUnits := workUnits
        remark := item.remark }

/-- The field names of every JSON request body the UI sends, one entry per
mutation endpoint, collected from the sources (the employee import sends a
single multipart File field). -/
def uiRequestBodyFields : List (String × List String) :=
  [("PUT /api/time-entries/{id}",
      ["employee_id", "project_id", "work_date", "normal_hours", "overtime_hours", "remark"]),
   ("POST /api/time-entries/batch",
      ["employee_ids", "work_dates", "project_id", "normal_hours", "overtime_hours", "remark"]),
   ("PUT /api/employees/{id}",
      ["name", "type", "work_type", "phone", "id_card_number", "remark", "tags"]),
   ("POST /api/employees",
      ["name", "type", "work_type", "phone", "id_card_number", "remark", "tags"]),
   ("POST /api/employees/import", ["File"]),
   ("PUT /api/projects/{id}",
      ["name", "code", "status", "planned_start_date", "planned_end_date", "remark"]),
   ("POST /api/projects",
      ["name", "code", "status", "planned_start_date", "planned_end_date", "remark"]),
   ("POST /api/auth/login", ["account", "password"]),
   ("POST /api/auth/register", ["account", "password", "tenant_name"]),
   ("POST /api/auth/change-password", ["current_password", "new_password"]),
   ("POST /api/auth/change-display-name", ["display_name"])]

/-- The spellings under which a work-unit field could travel. -/
def workUnitFieldNames : List String :=
  ["work_units", "workUnits", "total_work_units", "totalWorkUnits"]

/-! ## Helper lemmas -/

theorem decodeUser_encodeUser (u : AuthUser) : decodeUser (encodeUser u) = some u := by
  rcases u with ⟨id, account, dn, role⟩
  cases id <;> cases dn <;> cases role <;> rfl

theorem decodeTenant_encodeTenant (t : AuthTenant) : decodeTenant (encodeTenant t) = some t := by
  rcases t with ⟨id, code, name⟩
  cases id <;> cases code <;> cases name <;> rfl

theorem getField_encodeSession_token (s : AuthSession) :
    (encodeSession s).getField "token" = some (.str s.token) := by
  rcases s with ⟨token, user, tenant⟩
  cases user <;> cases tenant <;> rfl

theorem getField_encodeSession_user (s : AuthSession) :
    (encodeSession s).getField "user" = s.user.map encodeUser := by
  rcases s with ⟨token, user, tenant⟩
  cases user <;> cases tenant <;> rfl

theorem getField_encodeSession_tenant (s : AuthSession) :
    (encodeSession s).getField "tenant" = s.tenant.map encodeTenant := by
  rcases s with ⟨token, user, tenant⟩
  cases user <;> cases tenant <;> rfl

/-! ## Claims -/

/-- C8: for every session whose token is a nonempty string, loading after
saving returns a session with the same token, user and tenant (round-trip
through the easy-record-session local-storage slot). -/
theorem session_save_load_roundTrip (s : AuthSession) (h : s.token ≠ "") :
    loadAuthSession (saveAuthSession s) = some s := by
  rcases hs : s with ⟨token, user, tenant⟩
  have htok : token ≠ "" := by simpa [hs] using h
  simp only [saveAuthSession, loadAuthSession, getField_encodeSession_token]
  rw [getField_encodeSession_user, getField_encodeSession_tenant]
  simp only [htok, if_false]
  cases user <;> cases tenant <;>
    simp [decodeUser_encodeUser, decodeTenant_encodeTenant]

/-- C8 witness at a concrete session. -/
theorem session_save_load_roundTrip_witness :
    loadAuthSession (saveAuthSession
      { token := "tok", user := some { account := "alice" }, tenant := none }) =
      some { token := "tok", user := some { account := "alice" }, tenant := none } :=
  session_save_load_roundTrip _ (by decide)

/-- C9: loadAuthSession is total and never throws; on a stored value that is
absent, unparsable text, or JSON whose token field is missing, empty or not a
string, it returns none, and loadAuthToken, loadAuthUser and loadAuthTenant
then return none as well (JSON.parse throwing is caught and modelled by the
notJson case). -/
theorem loadAuthSession_total (st : Stored) (h : storedBad st) :
    loadAuthSession st = none ∧ loadAuthToken st = none ∧
    loadAuthUser st = none ∧ loadAuthTenant st = none := by
  have hs : loadAuthSession st = none := by
    cases st with
    | absent => rfl
    | emptyString => rfl
    | notJson raw => rfl
    | json j =>
      simp only [loadAuthSession]
      simp only [storedBad] at h
      rcases hj : j.getField "token" with _ | v
      · simp [hj]
      · cases v with
        | str t =>
          simp only [hj] at h
          simp [hj, h]
        | null => simp [hj]
        | bool b => simp [hj]
        | num q => simp [hj]
        | arr xs => simp [hj]
        | obj fs => simp [hj]
  exact ⟨hs, by simp [loadAuthToken, hs], by simp [loadAuthUser, hs],
    by simp [loadAuthTenant, hs]⟩

/-- C9 witness: a stored JSON object whose token field is a number. -/
theorem loadAuthSession_total_witness :
    loadAuthSession (.json (.obj [("token", .num 5)])) = none ∧
    loadAuthToken (.json (.obj [("token", .num 5)])) = none ∧
    loadAuthUser (.json (.obj [("token", .num 5)])) = none ∧
    loadAuthTenant (.json (.obj [("token", .num 5)])) = none :=
  loadAuthSession_total _ True.intro

/-- C5 counterexample: navigating to the public path /privacy with no stored
token renders the page content and performs no redirect, contrary to the
claim that every page navigation without a token redirects to /login. -/
theorem authGuard_public_counterexample :
    authGuard "/privacy" none =
      { redirect := none, rendersChildren := true } := by
  decide

/-- C5 amended: on every non-public path (not /login, /register, /privacy or
/disclaimer), a navigation with no persisted token (loadAuthToken none, or an
empty token) redirects to /login and does not render the page content. -/
theorem authGuard_redirects_without_token (pathname : String) (token : Option String)
    (hpub : isPublicPath pathname = false) (htok : token.getD "" = "") :
    authGuard pathname token =
      { redirect := some "/login", rendersChildren := false } := by
  simp [authGuard, hpub, htok]

/-- C5 witness: the daily-record route with no token. -/
theorem authGuard_redirects_without_token_witness :
    authGuard "/" none = { redirect := some "/login", rendersChildren := false } :=
  authGuard_redirects_without_token "/" none (by decide) rfl

/-- C7: submitting the employee form with a name that is empty after trimming
shows exactly one warning toast, performs no API request, and leaves the form
state and pending tag input unchanged. -/
theorem employeeSubmit_empty_name (editing : Option String) (form : EmployeeFormState)
    (tagInput : String) (h : jsTrim form.name = "") :
    submitEmployeeForm editing form tagInput =
      ([.toast "请输入员工姓名。" "warning"], form, tagInput) ∧
    ∀ e ∈ (submitEmployeeForm editing form tagInput).1, e.issuesRequest = false := by
  have hmain : submitEmployeeForm editing form tagInput =
      ([.toast "请输入员工姓名。" "warning"], form, tagInput) := by
    simp [submitEmployeeForm, h]
  refine ⟨hmain, ?_⟩
  rw [hmain]
  intro e he
  simp at he
  subst he
  rfl

/-- C7 witness: a whitespace-only name on the create form. -/
theorem employeeSubmit_empty_name_witness :
    submitEmployeeForm none
      { name := " ", type := "正式工", workType := "", phone := "",
        idCardNumber := "", remark := "", tags := [] } "" =
      ([.toast "请输入员工姓名。" "warning"],
        { name := " ", type := "正式工", workType := "", phone := "",
          idCardNumber := "", remark := "", tags := [] }, "") :=
  (employeeSubmit_empty_name none _ "" (by decide)).1

/-- C4 counterexample: the daily-record page's loadEmployees catch block only
logs to the console; no toast notification surfaces the failure, contrary to
the claim that every failed view-page API call is surfaced via a toast. -/
theorem catchEffects_no_toast_counterexample :
    catchEffects .homeLoadEmployees (some "网络错误") = [.consoleError] ∧
    (catchEffects .homeLoadEmployees (some "网络错误")).any Effect.isToast = false := by
  decide

/-- C4 amended: every view-page API failure is caught at the call site and
never re-issues a request (no retry or backoff); the mutation, report-summary
and day-detail failures surface a toast with the error's message (or a
human-readable fallback), while the list and dropdown load failures of the
daily-record, employees, projects and reports pages only log to the console. -/
theorem catchEffects_characterized (site : CallSite) (msg : Option String) :
    (∀ e ∈ catchEffects site msg, e.issuesRequest = false) ∧
    ((catchEffects site msg).any Effect.isToast = !(silentSites.contains site)) := by
  cases site <;> cases msg <;> simp [catchEffects, silentSites, Effect.isToast,
    Effect.issuesRequest, List.contains]

/-- C4 witness at the delete handler of the daily-record page. -/
theorem catchEffects_characterized_witness :
    (∀ e ∈ catchEffects .homeDelete (some "x"), e.issuesRequest = false) ∧
    ((catchEffects .homeDelete (some "x")).any Effect.isToast =
      !(silentSites.contains .homeDelete)) :=
  catchEffects_characterized .homeDelete (some "x")

/-- C10 counterexample: from the initial pagination state, loading a total of
45 and paging to page 3 satisfies the claimed invariant, but a subsequent
loadEntries response with total 0 leaves the page at 3 while the total page
count collapses to 1 (the clamp is skipped when the new total is 0), breaking
1 ≤ entryPage ≤ entryTotalPages. -/
theorem pager_invariant_counterexample :
    pagerInv (List.foldl pagerStep pagerInit
      [.loadResult 45, .nextClick, .nextClick]) ∧
    List.foldl pagerStep pagerInit
      [.loadResult 45, .nextClick, .nextClick, .loadResult 0] =
      { page := 3, total := 0, pageSize := 15 } ∧
    ¬ pagerInv { page := 3, total := 0, pageSize := 15 } := by
  decide

/-- The invariant that actually holds: the page is at least 1, and bounded by
the total page count whenever the last loaded total is positive. -/
def pagerInv2 (s : PagerState) : Prop :=
  1 ≤ s.page ∧ (0 < s.total → s.page ≤ totalPages s)

instance (s : PagerState) : Decidable (pagerInv2 s) := by
  unfold pagerInv2; infer_instance

/-- Page-size changes come from the select control's options. -/
def pagerActionOk : PagerAction → Prop
  | .setPageSize n => n ∈ pageSizeOptions
  | _ => True

/-- C10 amended: every pagination operation preserves 1 ≤ entryPage and
entryPage ≤ entryTotalPages whenever entryTotal is positive; the previous and
next buttons clamp to [1, entryTotalPages]; filter and page-size changes
reset the page to 1; and loadEntries clamps the page down whenever the new
total is positive (a response with total 0 leaves the page unchanged, so the
upper bound is only guaranteed for positive totals). -/
theorem pager_step_preserves (s : PagerState) (a : PagerAction)
    (hinv : pagerInv2 s) (ha : pagerActionOk a) :
    pagerInv2 (pagerStep s a) ∧
    (pagerStep s .filterChange).page = 1 ∧
    (∀ n, (pagerStep s (.setPageSize n)).page = 1) ∧
    (∀ t, 0 < t →
      (pagerStep s (.loadResult t)).page ≤ totalPages (pagerStep s (.loadResult t))) ∧
    1 ≤ (pagerStep s .prevClick).page ∧
    (pagerStep s .nextClick).page ≤ totalPages s := by
  obtain ⟨h1, h2⟩ := hinv
  have htp : 1 ≤ totalPages s := le_max_left 1 _
  have hload : ∀ t, 0 < t →
      (pagerStep s (.loadResult t)).page ≤ totalPages (pagerStep s (.loadResult t)) := by
    intro t ht
    simp only [pagerStep]
    split
    · rename_i hc
      exact le_refl _
    · rename_i hc
      have : ¬ totalPages { s with total := t } < s.page := fun hlt => hc ⟨ht, hlt⟩
      exact le_of_not_lt this
  refine ⟨?_, rfl, fun n => rfl, hload, le_max_left 1 _, min_le_left _ _⟩
  cases a with
  | prevClick =>
    refine ⟨le_max_left 1 _, fun htot => ?_⟩
    have : s.page - 1 ≤ totalPages s := le_trans (Nat.sub_le _ _) (h2 htot)
    simpa [pagerStep, totalPages] using max_le htp this
  | nextClick =>
    refine ⟨?_, fun htot => ?_⟩
    · exact le_min htp (Nat.succ_le_succ (Nat.zero_le _))
    · simpa [pagerStep, totalPages] using min_le_left (totalPages s) (s.page + 1)
  | setPageSize n =>
    exact ⟨le_refl 1, fun _ => le_max_left 1 _⟩
  | filterChange =>
    exact ⟨le_refl 1, fun _ => le_max_left 1 _⟩
  | loadResult t =>
    constructor
    · simp only [pagerStep]
      split
      · exact le_max_left 1 _
      · exact h1
    · intro htot
      rcases Nat.eq_zero_or_pos t with ht0 | htpos
      · subst ht0
        simp only [pagerStep] at htot ⊢
        split at htot <;> simp_all
      · have := hload t htpos
        exact this

/-- headerLookup ignores a leading pair with a different key. -/
theorem headerLookup_cons_ne (k a v : String) (rest : List (String × String))
    (h : k ≠ a) : headerLookup ((a, v) :: rest) k = headerLookup rest k := by
  simp [headerLookup, List.lookup, beq_false_of_ne h]

/-- headerLookup finds a leading pair with the same key. -/
theorem headerLookup_cons_self (k v : String) (rest : List (String × String)) :
    headerLookup ((k, v) :: rest) k = some v := by
  simp [headerLookup, List.lookup]

/-- Appending the Content-Type base does not affect other keys. -/
theorem headerLookup_append_base (opts : List (String × String)) (k : String)
    (hk : k ≠ "Content-Type") :
    headerLookup (opts ++ [("Content-Type", "application/json")]) k =
      headerLookup opts k := by
  induction opts with
  | nil => simp [headerLookup, List.lookup, beq_false_of_ne hk]
  | cons hd tl ih =>
    rcases hd with ⟨a, b⟩
    by_cases hka : k = a
    · subst hka
      simp [headerLookup, List.lookup] at ih ⊢
    · rw [List.cons_append, headerLookup_cons_ne k a b _ hka,
        headerLookup_cons_ne k a b tl hka]
      exact ih

/-- A sample ok response carrying a non-zero envelope code. -/
def envelopeErrorResponse : HttpResponse :=
  { ok := true, status := 200,
    body := .json (.obj [("code", .num 1), ("message", .str "boom")]) }

/-- C2 counterexample: on an HTTP-ok response whose JSON body carries the
envelope code 1, apiJson throws the body's message, but apiBlob returns the
body as a blob without throwing — apiBlob never inspects the envelope code,
contrary to the claim that the same code/message behavior holds for it. -/
theorem apiBlob_ignores_envelope_counterexample :
    apiJsonResult envelopeErrorResponse = .error "boom" ∧
    apiBlobResult envelopeErrorResponse =
      .ok (.json (.obj [("code", .num 1), ("message", .str "boom")])) := by
  constructor <;> rfl

/-- C2 amended: for every ok-status response whose JSON body is an object
with a numeric code field, apiJson throws exactly when the code is non-zero,
with the body's message field as the error message (a default when it is
absent), and returns the payload when the code is zero or absent; apiBlob,
by contrast, only checks the HTTP status: on an ok response it returns the
raw body without inspecting any envelope field, and on a non-ok response it
throws the status message. -/
theorem apiJson_envelope (resp : HttpResponse) (hok : resp.ok = true) :
    (∀ fields c, responsePayload resp.body = .obj fields →
      (Json.obj fields).getField "code" = some (.num c) →
        ((c ≠ 0 →
          (∀ m, (Json.obj fields).getField "message" = some (.str m) →
            apiJsonResult resp = .error m) ∧
          ((Json.obj fields).getField "message" = none →
            apiJsonResult resp = .error "请求失败")) ∧
        (c = 0 → apiJsonResult resp = .ok (.obj fields)))) ∧
    (∀ fields, responsePayload resp.body = .obj fields →
      (Json.obj fields).getField "code" = none →
      apiJsonResult resp = .ok (.obj fields)) ∧
    apiBlobResult resp = .ok resp.body ∧
    (∀ r : HttpResponse, r.ok = false →
      apiBlobResult r = .error ("请求失败(" ++ toString r.status ++ ")")) := by
  refine ⟨?_, ?_, ?_, ?_⟩
  · intro fields c hpay hcode
    constructor
    · intro hc
      constructor
      · intro m hm
        simp [apiJsonResult, hok, hpay, envelopeErrorCode, hcode, hc,
          envelopeErrorMessage, hm]
      · intro hm
        simp [apiJsonResult, hok, hpay, envelopeErrorCode, hcode, hc,
          envelopeErrorMessage, hm]
    · intro hc
      simp [apiJsonResult, hok, hpay, envelopeErrorCode, hcode, hc]
  · intro fields hpay hcode
    simp [apiJsonResult, hok, hpay, envelopeErrorCode, hcode]
  · simp [apiBlobResult, hok]
  · intro r hr
    simp [apiBlobResult, hr]

/-- C2 witness at a concrete ok response with code 2 and message. -/
theorem apiJson_envelope_witness :
    apiJsonResult
      { ok := true, status := 200,
        body := .json (.obj [("code", .num 2), ("message", .str "bad")]) } =
      .error "bad" :=
  (((apiJson_envelope
      { ok := true, status := 200,
        body := .json (.obj [("code", .num 2), ("message", .str "bad")]) }
      rfl).1 [("code", .num 2), ("message", .str "bad")] 2
    rfl rfl).1 (by norm_num)).1 "bad" rfl

/-- C6: every request the API client sends carries Authorization Bearer token
when a session token is loaded; with no token the header object is exactly
the caller's headers over the Content-Type base for apiJson (and the caller's
headers alone for apiBlob), so no Authorization header is attached; all other
header keys and the JSON-serialized object body pass through unchanged, as
does the method (defaulting to GET). -/
theorem apiClient_headers (token : Option String) (path : String)
    (options : ApiRequestOptions) :
    (∀ t, token = some t →
      headerLookup (apiJsonRequest token path options).headers "Authorization" =
        some ("Bearer " ++ t) ∧
      headerLookup (apiBlobRequest token path options).headers "Authorization" =
        some ("Bearer " ++ t)) ∧
    (token = none →
      (apiJsonRequest token path options).headers =
        options.headers ++ [("Content-Type", "application/json")] ∧
      (apiBlobRequest token path options).headers = options.headers) ∧
    (∀ k, k ≠ "Authorization" → k ≠ "Content-Type" →
      headerLookup (apiJsonRequest token path options).headers k =
        headerLookup options.headers k ∧
      headerLookup (apiBlobRequest token path options).headers k =
        headerLookup options.headers k) ∧
    (∀ fields, options.body = some (.obj fields) →
      (apiJsonRequest token path options).body = some (.obj fields) ∧
      (apiBlobRequest token path options).body = some (.obj fields)) ∧
    (apiJsonRequest token path options).method = options.method.getD "GET" := by
  refine ⟨?_, ?_, ?_, ?_, rfl⟩
  · intro t ht
    subst ht
    exact ⟨headerLookup_cons_self _ _ _, headerLookup_cons_self _ _ _⟩
  · intro ht
    subst ht
    exact ⟨rfl, rfl⟩
  · intro k hka hkc
    cases token with
    | none =>
      refine ⟨?_, rfl⟩
      exact headerLookup_append_base options.headers k hkc
    | some t =>
      constructor
      · show headerLookup (("Authorization", "Bearer " ++ t) ::
          (options.headers ++ [("Content-Type", "application/json")])) k = _
        rw [headerLookup_cons_ne k _ _ _ hka]
        exact headerLookup_append_base options.headers k hkc
      · show headerLookup (("Authorization", "Bearer " ++ t) :: options.headers) k = _
        exact headerLookup_cons_ne k _ _ _ hka
  · intro fields hbody
    constructor <;> simp [apiJsonRequest, apiBlobRequest, hbody, Json.truthy]

/-- C6 witness at a concrete token, custom header and object body. -/
theorem apiClient_headers_witness :
    headerLookup (apiJsonRequest (some "tok") "/api/employees"
      { headers := [("X-Req", "1")], body := some (.obj [("name", .str "a")]) }).headers
      "Authorization" = some ("Bearer " ++ "tok") ∧
    headerLookup (apiJsonRequest (some "tok") "/api/employees"
      { headers := [("X-Req", "1")], body := some (.obj [("name", .str "a")]) }).headers
      "X-Req" = headerLookup [("X-Req", "1")] "X-Req" ∧
    (apiJsonRequest (some "tok") "/api/employees"
      { headers := [("X-Req", "1")], body := some (.obj [("name", .str "a")]) }).body =
      some (.obj [("name", .str "a")]) :=
  ⟨((apiClient_headers (some "tok") "/api/employees" _).1 "tok" rfl).1,
   (((apiClient_headers (some "tok") "/api/employees" _).2.2.1 "X-Req"
      (by decide) (by decide))).1,
   (((apiClient_headers (some "tok") "/api/employees" _).2.2.2.1
      [("name", .str "a")] rfl)).1⟩

/-- C10 witness at the initial state and a filter change. -/
theorem pager_step_preserves_witness :
    pagerInv2 (pagerStep pagerInit .filterChange) ∧
    (pagerStep pagerInit .filterChange).page = 1 ∧
    (∀ n, (pagerStep pagerInit (.setPageSize n)).page = 1) ∧
    (∀ t, 0 < t →
      (pagerStep pagerInit (.loadResult t)).page ≤
        totalPages (pagerStep pagerInit (.loadResult t))) ∧
    1 ≤ (pagerStep pagerInit .prevClick).page ∧
    (pagerStep pagerInit .nextClick).page ≤ totalPages pagerInit :=
  pager_step_preserves pagerInit .filterChange (by decide) True.intro

/-- Selecting a month key selects its zero-padded first day. -/
theorem monthKey_append_01 (y m : ℕ) : monthKey y m ++ "-01" = dateKey y m 1 := by
  unfold monthKey dateKey
  have h1 : padTwo 1 = "01" := rfl
  have h2 : ("-01" : String) = "-" ++ "01" := rfl
  rw [h1, h2, ← String.append_assoc]

/-- C3: the calendar grid of the daily-record page has
ceil((startIndex + daysInMonth) / 7) * 7 cells; cell i is non-empty exactly
when startIndex ≤ i < startIndex + daysInMonth, the non-empty cells carrying
the day numbers 1..daysInMonth in order with zero-padded date keys; and
picking a month in the dropdown sets the selected date to that month's first
day. -/
theorem calendar_grid (y m : ℕ) (_hm1 : 1 ≤ m) (_hm2 : m ≤ 12) :
    (calendarCells y m).length = ((startIndex y m + daysInMonth y m + 6) / 7) * 7 ∧
    startIndex y m + daysInMonth y m ≤ (calendarCells y m).length ∧
    (∀ i, i < (calendarCells y m).length →
      (calendarCells y m).getD i none =
        (if startIndex y m ≤ i ∧ i < startIndex y m + daysInMonth y m then
          some (i - startIndex y m + 1, dateKey y m (i - startIndex y m + 1))
        else none)) ∧
    handleMonthChange (monthKey y m) =
      { selectedMonth := monthKey y m, selectedDate := dateKey y m 1 } := by
  have hlen : (calendarCells y m).length = totalCells y m := by
    simp [calendarCells]
  refine ⟨?_, ?_, ?_, ?_⟩
  · rw [hlen]; rfl
  · rw [hlen]
    unfold totalCells
    omega
  · intro i hi
    rw [hlen] at hi
    have hcell : (calendarCells y m).getD i none = calendarCell y m i := by
      rw [List.getD_eq_getElem?_getD]
      simp [calendarCells, hi]
    rw [hcell]
    unfold calendarCell
    by_cases hin : startIndex y m ≤ i ∧ i < startIndex y m + daysInMonth y m
    · rw [if_neg (by omega), if_pos hin]
      have hday : ((i : ℤ) - (startIndex y m : ℤ) + 1).toNat = i - startIndex y m + 1 := by
        omega
      rw [hday]
    · rw [if_pos (by omega), if_neg hin]
  · unfold handleMonthChange
    rw [monthKey_append_01]

/-- C3 witness for October 2025 (31 days, a Wednesday start). -/
theorem calendar_grid_witness :
    (calendarCells 2025 10).length =
      ((startIndex 2025 10 + daysInMonth 2025 10 + 6) / 7) * 7 ∧
    handleMonthChange (monthKey 2025 10) =
      { selectedMonth := monthKey 2025 10, selectedDate := dateKey 2025 10 1 } :=
  ⟨(calendar_grid 2025 10 (by norm_num) (by norm_num)).1,
   (calendar_grid 2025 10 (by norm_num) (by norm_num)).2.2.2⟩

/-- C1: the work-unit value displayed by formatWorkUnits is
normalHours / 8 + overtimeHours / 6; the reports page's normalizeSummary and
normalizeTimeEntry compute the same fallback when the backend omits the
work-unit fields; and no request body the UI sends contains a work-unit
field: the metric is derived for display only. -/
theorem workUnits_displayOnly (n o : ℚ) (item : SummaryItemJs)
    (entry : TimeEntryItemJs) :
    workUnitsValue n o = n / 8 + o / 6 ∧
    (item.total_work_units = none → item.totalWorkUnits = none →
      ∀ r, normalizeSummary item = some r →
        r.totalWorkUnits = workUnitsValue r.normalHours r.overtimeHours) ∧
    (entry.work_units = none → entry.workUnits = none →
      ∀ r, normalizeTimeEntry entry = some r →
        r.workUnits = workUnitsValue r.normalHours r.overtimeHours) ∧
    (∀ p ∈ uiRequestBodyFields, ∀ f ∈ p.2, f ∉ workUnitFieldNames) := by
  refine ⟨rfl, ?_, ?_, by decide⟩
  · intro h1 h2 r hr
    rcases hdate : item.date.orElse (fun _ => item.work_date) with _ | date
    · simp [normalizeSummary, hdate] at hr
    · by_cases hd : date = ""
      · simp [normalizeSummary, hdate, hd] at hr
      · simp [normalizeSummary, hdate, hd, h1, h2] at hr
        subst hr
        rfl
  · intro h1 h2 r hr
    by_cases hid : entry.id.getD "" = "" ∨
        (entry.employee_name.orElse (fun _ => entry.employeeName)).getD "" = ""
    · simp only [normalizeTimeEntry, if_pos hid] at hr
      exact absurd hr (by simp)
    · simp only [normalizeTimeEntry, if_neg hid] at hr
      simp [h1, h2] at hr
      subst hr
      rfl

/-- C1 witness at 8 normal and 6 overtime hours: two work units. -/
theorem workUnits_displayOnly_witness :
    normalizeSummary
      { date := some "2025-10-01", normal_hours := some 8, overtime_hours := some 6 } =
      some { date := "2025-10-01", headcount := 0, normalHours := 8,
             overtimeHours := 6, totalHours := 14, totalWorkUnits := 2 } ∧
    ({ date := "2025-10-01", headcount := 0, normalHours := 8, overtimeHours := 6,
       totalHours := 14, totalWorkUnits := 2 } : SummaryDaily).totalWorkUnits =
      workUnitsValue 8 6 ∧
    normalizeTimeEntry
      { id := some "e1", employee_name := some "张三", normal_hours := some 4,
        overtime_hours := some 3 } =
      some { id := "e1", employeeName := "张三", employeeType := "", workType := "",
             normalHours := 4, overtimeHours := 3, totalHours := 7,
             workUnits := 1, remark := none } ∧
    ({ id := "e1", employeeName := "张三", employeeType := "", workType := "",
       normalHours := 4, overtimeHours := 3, totalHours := 7, workUnits := 1,
       remark := none } : TimeEntryR).workUnits = workUnitsValue 4 3 := by
  have hs : normalizeSummary
      { date := some "2025-10-01", normal_hours := some 8, overtime_hours := some 6 } =
      some { date := "2025-10-01", headcount := 0, normalHours := 8,
             overtimeHours := 6, totalHours := 14, totalWorkUnits := 2 } := by
    simp [normalizeSummary]
    norm_num
  have ht : normalizeTimeEntry
      { id := some "e1", employee_name := some "张三", normal_hours := some 4,
        overtime_hours := some 3 } =
      some { id := "e1", employeeName := "张三", employeeType := "", workType := "",
             normalHours := 4, overtimeHours := 3, totalHours := 7,
             workUnits := 1, remark := none } := by
    simp [normalizeTimeEntry]
    norm_num
  refine ⟨hs, ?_, ht, ?_⟩
  · exact (workUnits_displayOnly 8 6
      { date := some "2025-10-01", normal_hours := some 8, overtime_hours := some 6 }
      { id := some "e1", employee_name := some "张三", normal_hours := some 4,
        overtime_hours := some 3 }).2.1 rfl rfl _ hs
  · exact (workUnits_displayOnly 8 6
      { date := some "2025-10-01", normal_hours := some 8, overtime_hours := some 6 }
      { id := some "e1", employee_name := some "张三", normal_hours := some 4,
        overtime_hours := some 3 }).2.2.1 rfl rfl _ ht

end EasyRecord
